import Mathlib

/-!
Verification development for `scaffold.py`, an interactive command-line
scaffolder that creates a directory tree of specification template files.

The embedding is shallow: interactive standard input is modelled as a list
of response lines consumed in order, and the filesystem is modelled as an
explicit state (`FS`) holding the set of existing directories and the
written files.  Python strings are modelled as Lean `String`.
-/

set_option maxRecDepth 100000

namespace Scaffold

/-- Model of Python `str.strip()` on a list of characters: remove leading
whitespace, then trailing whitespace.  (ASCII whitespace; Python also strips
some rarer Unicode space characters, which no behaviour here depends on.) -/
def stripList (l : List Char) : List Char :=
  (l.dropWhile Char.isWhitespace).rdropWhile Char.isWhitespace

/-- Model of Python `str.strip()`. -/
def pyStrip (s : String) : String :=
  String.mk (stripList s.data)

/-- Value of a run of digits with single interior underscores, per Python's
integer-literal grammar `digit (["_"] digit)*` used by `int()`.  Returns
`none` when a non-digit other than a well-placed underscore appears. -/
def digitsRest : Nat → List Char → Option Nat
  | acc, [] => some acc
  | acc, c :: cs =>
    if c.isDigit then digitsRest (acc * 10 + (c.toNat - 48)) cs
    else if c = '_' then
      match cs with
      | d :: cs2 => if d.isDigit then digitsRest (acc * 10 + (d.toNat - 48)) cs2 else none
      | [] => none
    else none

/-- Digit part of `int()` parsing: at least one digit, underscores allowed
between digits. -/
def digitsVal : List Char → Option Nat
  | [] => none
  | d :: ds => if d.isDigit then digitsRest (d.toNat - 48) ds else none

/-- Model of Python `int(s)` for a string already stripped of surrounding
whitespace: optional sign followed by a digit run (ASCII digits; Python also
accepts non-ASCII decimal digits, which no behaviour here depends on).
`none` models `ValueError`. -/
def pyInt (s : String) : Option Int :=
  match s.data with
  | '+' :: rest => (digitsVal rest).map Int.ofNat
  | '-' :: rest => (digitsVal rest).map (fun n => -(n : Int))
  | rest => (digitsVal rest).map Int.ofNat

/-- Function `prompt(question, default)` from scaffold.py, as a function of the raw
response line: the response is stripped; when a non-empty default is given
and the stripped response is empty, the default is returned.  The question
text only affects standard output and is omitted. -/
def prompt (default response : String) : String :=
  if default ≠ "" then
    let r := pyStrip response
    if r ≠ "" then r else default
  else pyStrip response

/-- Function `prompt_choice(question, options)` from scaffold.py, as a function of the
remaining standard-input lines.  Each line is stripped and parsed with
`int()`; a parse failure or an index outside `1..len(options)` re-prompts on
the next line.  Returns the selected option and the unconsumed lines, or
`none` when the line list is exhausted (the real program would block for
more input; printing is not modelled). -/
def prompt_choice (options : List String) : List String → Option (String × List String)
  | [] => none
  | r :: rs =>
    match pyInt (pyStrip r) with
    | some i =>
      if h : 1 ≤ i ∧ i ≤ (options.length : Int) then
        some (options.get ⟨i.toNat - 1, by omega⟩, rs)
      else prompt_choice options rs
    | none => prompt_choice options rs

/-- The four project types offered by `gather_inputs`. -/
def projectTypes : List String :=
  ["Data pipeline", "Analysis tool", "Algorithm implementation", "General"]

/-- The four AI-tool choices offered by `gather_inputs`. -/
def aiTools : List String :=
  ["Claude Code", "Cursor", "GitHub Copilot", "Other/None"]

/-- The Inputs record produced by `gather_inputs`. -/
structure Inputs where
  name : String
  description : String
  project_type : String
  ai_tool : String
  deriving Repr, DecidableEq

/-- The name loop of `gather_inputs`: re-prompt while the stripped response
is empty.  Returns the first non-empty stripped response together with the
unconsumed lines, or `none` when the line list is exhausted. -/
def promptName : List String → Option (String × List String)
  | [] => none
  | r :: rs =>
    let v := pyStrip r
    if v = "" then promptName rs else some (v, rs)

/-- Function `gather_inputs()` from scaffold.py over a list of standard-input lines:
name (re-prompted while empty), description (defaulted when empty), then two
numbered-menu selections. -/
def gather_inputs (stdin : List String) : Option Inputs :=
  match promptName stdin with
  | none => none
  | some (name, s1) =>
    match s1 with
    | [] => none
    | r :: s2 =>
      let description := prompt "A spec-driven scientific project" r
      match prompt_choice projectTypes s2 with
      | none => none
      | some (project_type, s3) =>
        match prompt_choice aiTools s3 with
        | none => none
        | some (ai_tool, _) =>
          some ⟨name, description, project_type, ai_tool⟩

/-- Template constant `SPEC_FORMAT` from scaffold.py. -/
def SPEC_FORMAT : String :=
  "# Spec Format Guide\n\nThis document explains how to write specifications for this project.\nBoth humans and AI assistants should reference this for consistency.\n\n" ++
  "## Status Labels\n\nEvery spec should have a status in its frontmatter:\n\n- **Draft** — Initial writing, not yet reviewed\n- **In Review** — Ready for feedback\n- **Approved** — Accepted, ready for implementation\n- **Implemented** — Code exists that fulfills this spec\n- **Deprecated** — No longer applicable\n\n" ++
  "## Spec Types\n\n### Requirements Specs\n\nDescribe *what* the system should do from the user's perspective.\n\n- Use **[MUST]**, **[SHOULD]**, **[COULD]** to indicate priority\n- Write as capabilities, not implementation details\n- Be specific enough to test against\n\n" ++
  "Example:\n```markdown\n- **[MUST]** Calculate RMS amplitude for each time window\n- **[SHOULD]** Support configurable window sizes (default: 1 second)\n- **[COULD]** Export results to CSV format\n```\n\n" ++
  "### Architecture Specs\n\nDescribe *how* components fit together.\n\n- Include diagrams where helpful (Mermaid works well)\n- Define interfaces between components\n- Document data flow\n\n" ++
  "### Algorithm Specs\n\nDescribe computational methods in detail.\n\n- Reference source papers/methods\n- Include mathematical notation where precise\n- Define expected inputs, outputs, and edge cases\n- Specify validation approach\n\n" ++
  "### Decision Records (ADRs)\n\nDocument significant decisions and their rationale.\n\n- Context: What prompted this decision?\n- Decision: What did we decide?\n- Consequences: What are the tradeoffs?\n\n" ++
  "## Markdown Conventions\n\n- Use fenced code blocks with language tags\n- Use tables for structured comparisons\n- Cross-reference other specs with relative links: `[see requirements](../01-requirements/functional.md)`\n\n" ++
  "## Change Records\n\nEach spec should end with a change record:\n\n```markdown\n## Change Record\n\n- YYYY-MM-DD: Initial draft\n- YYYY-MM-DD: Added edge case handling per review feedback\n```\n"

/-- Template function `overview_template(name, description)` from scaffold.py.  The call to
`_today()` is modelled by the explicit `today` parameter (see `C7`). -/
def overview_template (today name description : String) : String :=
  "# " ++ name ++ "\n\n" ++ "**Status**: " ++ "Draft\n\n" ++ description ++
  "\n\n<!--\nThis is your project's overview spec. It should answer:\n- What problem does this project solve?\n- Who is it for?\n- What are the key capabilities?\n\nKeep it high-level. Details go in requirements and architecture specs.\n\nDelete these instructions once you've written the overview.\n-->\n\n" ++
  "## Problem Statement\n\n[What problem are you solving? Why does it matter?]\n\n## Goals\n\n[What should this project accomplish?]\n\n## Non-Goals\n\n[What is explicitly out of scope?]\n\n## Key Components\n\n[High-level overview of the main parts]\n\n" ++
  "## Change Record" ++ "\n\n" ++ "- " ++ today ++ ": Initial draft" ++ "\n"

/-- Template constant `FUNCTIONAL_REQUIREMENTS` from scaffold.py. -/
def FUNCTIONAL_REQUIREMENTS : String :=
  "# Functional Requirements\n\n**Status**: Draft\n\n" ++
  "<!--\nThis file describes WHAT your system should do from the user's perspective.\nWrite these as capabilities, not implementation details.\n\nTips:\n- Start each requirement with a verb (Calculate, Display, Export...)\n- Use [MUST], [SHOULD], [COULD] to prioritize (see spec-format.md)\n- Be specific enough to test against later\n- It's okay to start sparse and add detail as you learn more\n\nDelete these instructions once you've got the hang of it.\n-->\n\n" ++
  "## Overview\n\n[Brief context for what you're building]\n\n## Core Capabilities\n\n- **[MUST]** [Required capability]\n- **[MUST]** [Another required capability]\n- **[SHOULD]** [Important but deferrable]\n- **[COULD]** [Nice to have]\n\n" ++
  "## Input/Output\n\n### Inputs\n\n[What data or parameters does the system accept?]\n\n### Outputs\n\n[What does the system produce?]\n\n## Error Handling\n\n[How should the system behave when things go wrong?]\n\n## Open Questions\n\n[What's still unclear? What needs discussion?]\n\n## Change Record\n\n- YYYY-MM-DD: Initial draft\n"

/-- Template constant `ADR_TEMPLATE` from scaffold.py. -/
def ADR_TEMPLATE : String :=
  "# ADR-000: Decision Record Template\n\n**Status**: Template\n\n**Date**: YYYY-MM-DD\n\n" ++
  "<!--\nArchitecture Decision Records (ADRs) capture significant technical decisions.\nCopy this template for each new decision. Number them sequentially (ADR-001, ADR-002, etc.).\n\nA good ADR explains:\n- What decision was made\n- Why it was made (context and constraints)\n- What alternatives were considered\n- What the consequences are\n\nDelete these instructions when writing a real ADR.\n-->\n\n" ++
  "## Context\n\n[What is the issue? What forces are at play? What constraints exist?]\n\n## Decision\n\n[What did you decide to do?]\n\n" ++
  "## Alternatives Considered\n\n### Alternative 1: [Name]\n\n[Description, pros, cons]\n\n### Alternative 2: [Name]\n\n[Description, pros, cons]\n\n" ++
  "## Consequences\n\n### Positive\n\n- [Benefit 1]\n- [Benefit 2]\n\n### Negative\n\n- [Tradeoff 1]\n- [Tradeoff 2]\n\n### Neutral\n\n- [Side effect that's neither good nor bad]\n\n## Change Record\n\n- YYYY-MM-DD: Initial decision\n"

/-- Template constant `DATA_FLOW_TEMPLATE` from scaffold.py. -/
def DATA_FLOW_TEMPLATE : String :=
  "# Data Flow Architecture\n\n**Status**: Draft\n\n" ++
  "<!--\nThis spec describes how data moves through your pipeline.\nUseful for data processing, ETL, and analysis projects.\n\nDelete these instructions once you've documented your data flow.\n-->\n\n" ++
  "## Overview\n\n[High-level description of the data flow]\n\n## Pipeline Stages\n\n### Stage 1: Ingestion\n\n**Input**: [Source format, location]\n**Output**: [Intermediate format]\n**Processing**: [What happens here]\n\n" ++
  "### Stage 2: Processing\n\n**Input**: [From previous stage]\n**Output**: [Transformed data]\n**Processing**: [What happens here]\n\n### Stage 3: Output\n\n**Input**: [From previous stage]\n**Output**: [Final format, destination]\n**Processing**: [What happens here]\n\n" ++
  "## Data Formats\n\n[Describe key data structures, file formats, schemas]\n\n## Error Handling\n\n[What happens when a stage fails?]\n\n## Change Record\n\n- YYYY-MM-DD: Initial draft\n"

/-- Template constant `ALGORITHM_SPEC_TEMPLATE` from scaffold.py. -/
def ALGORITHM_SPEC_TEMPLATE : String :=
  "# Algorithm: [Name]\n\n**Status**: Draft\n\n" ++
  "<!--\nThis spec describes a computational algorithm in detail.\nReference papers, define mathematics precisely, specify edge cases.\n\nDelete these instructions once you've documented the algorithm.\n-->\n\n" ++
  "## Overview\n\n[What does this algorithm do? Where does it come from?]\n\n## References\n\n- [Paper/textbook citation]\n- [Implementation reference, if any]\n\n## Mathematical Definition\n\n[Precise mathematical description. Use LaTeX notation if helpful.]\n\n" ++
  "## Inputs\n\n| Parameter | Type | Description | Constraints |\n|-----------|------|-------------|-------------|\n| x | array | Input signal | Length > 0 |\n\n## Outputs\n\n| Output | Type | Description |\n|--------|------|-------------|\n| result | float | Computed value |\n\n" ++
  "## Algorithm Steps\n\n1. [Step 1]\n2. [Step 2]\n3. [Step 3]\n\n## Edge Cases\n\n- [What happens with empty input?]\n- [What happens with NaN values?]\n- [Numerical stability concerns?]\n\n## Validation Approach\n\n[How will you verify the implementation is correct?]\n\n## Change Record\n\n- YYYY-MM-DD: Initial draft\n"

/-- Template constant `VALIDATION_SPEC_TEMPLATE` from scaffold.py. -/
def VALIDATION_SPEC_TEMPLATE : String :=
  "# Validation Plan\n\n**Status**: Draft\n\n" ++
  "<!--\nThis spec describes how you'll validate that your implementation is correct.\nEspecially important for scientific code where correctness matters.\n\nDelete these instructions once you've documented your validation plan.\n-->\n\n" ++
  "## Overview\n\n[What are you validating? What does \"correct\" mean for this project?]\n\n## Test Cases\n\n### Unit Tests\n\n[Tests for individual functions/components]\n\n### Integration Tests\n\n[Tests for components working together]\n\n" ++
  "### Known-Answer Tests\n\n[Tests against published results or analytical solutions]\n\n| Test Case | Input | Expected Output | Source |\n|-----------|-------|-----------------|--------|\n| [Name] | [Input description] | [Expected result] | [Paper/reference] |\n\n" ++
  "## Validation Data\n\n[What test datasets exist? Where do they come from?]\n\n## Acceptance Criteria\n\n[What must pass before the implementation is considered valid?]\n\n## Change Record\n\n- YYYY-MM-DD: Initial draft\n"

/-- Template function `readme_template(name, description)` from scaffold.py. -/
def readme_template (name description : String) : String :=
  "# " ++ name ++ "\n\n" ++ description ++
  "\n\n## Overview\n\nSee [specs/00-overview.md](specs/00-overview.md) for project goals and scope.\n\n## Project Structure\n\n```\n" ++
  name ++ "/\n├── specs/           # Specifications (start here!)\n│   ├── spec-format.md      # How to write specs\n│   ├── 00-overview.md      # Project overview\n│   ├── 01-requirements/    # What the system should do\n│   ├── 02-architecture/    # How components fit together\n│   ├── 03-implementation/  # Implementation details\n│   └── 99-decisions/       # Architecture decision records\n├── src/             # Source code\n└── tests/           # Test code\n```\n\n" ++
  "## Getting Started\n\n1. Read `specs/00-overview.md` to understand the project\n2. Review `specs/spec-format.md` for how to write specs\n3. Start with requirements in `specs/01-requirements/`\n\n" ++
  "## Development Approach\n\nThis project uses **spec-driven development**:\n\n1. Write specifications before code\n2. Use AI assistants to help refine specs and implement them\n3. Verify implementations against specs\n4. Update specs as requirements evolve\n\nSee [spec-driven.science](https://spec-driven.science) for more on this approach.\n"

/-- Template function `contributing_template(name)` from scaffold.py. -/
def contributing_template (name : String) : String :=
  "# Contributing to " ++ name ++
  "\n\n## Development Approach\n\nThis project uses spec-driven development. Before writing code:\n\n1. **Check for an existing spec** in the `specs/` directory\n2. **Write or update a spec** if one doesn't exist\n3. **Get the spec reviewed** before implementing\n4. **Reference the spec** in your code and commits\n\n" ++
  "## Commit Messages\n\nUse clear, descriptive commit messages:\n\n```\nAdd amplitude calculation per spec 03-implementation/amplitude.md\n\nImplements the RMS amplitude algorithm as specified. Includes\nedge case handling for empty windows.\n```\n\n" ++
  "## Code Style\n\n- Follow existing patterns in the codebase\n- Include docstrings for public functions\n- Write tests for new functionality\n\n" ++
  "## Pull Request Process\n\n1. Ensure your changes align with a spec\n2. Update specs if your changes affect requirements\n3. Include tests for new functionality\n4. Reference relevant specs in your PR description\n\n## Questions?\n\nOpen an issue for discussion before starting significant work.\n"

/-- Template function `claude_md_template(name)` from scaffold.py. -/
def claude_md_template (name : String) : String :=
  "# Project: " ++ name ++
  "\n\n## Overview\n\nThis is a spec-driven scientific project. Specifications live in the `specs/` directory and should be referenced before implementing any functionality.\n\n" ++
  "## Key Principles\n\n- **Specs first**: Check `specs/` before writing code. If no spec exists, write one.\n- **Small steps**: Implement incrementally. One function, one test, verify, repeat.\n- **Ask questions**: If a spec is unclear, ask for clarification rather than guessing.\n\n" ++
  "## Project Structure\n\n- `specs/` — Specifications (requirements, architecture, algorithms)\n- `src/` — Source code\n- `tests/` — Test code\n\n" ++
  "## Working With Me\n\n- Reference specific specs when discussing implementation\n- Propose spec updates if you notice gaps or issues\n- Keep implementations focused—one concept at a time\n- I'll verify your suggestions against the specs\n\n" ++
  "## Spec Format\n\nSee `specs/spec-format.md` for how specifications are written in this project.\n"

/-- Template function `cursorrules_template(name)` from scaffold.py. -/
def cursorrules_template (name : String) : String :=
  "# Project: " ++ name ++
  "\n\nThis is a spec-driven scientific project.\n\n## Key Rules\n\n1. Check `specs/` directory before implementing anything\n2. Reference specific specs when discussing code\n3. If no spec exists for a feature, write one first\n4. Keep changes small and incremental\n5. Verify implementations against spec requirements\n\n" ++
  "## Project Structure\n\n- `specs/` — Specifications (start here!)\n- `src/` — Source code\n- `tests/` — Test code\n\n## Spec Format\n\nSee `specs/spec-format.md` for specification conventions.\n"

/-- Template function `copilot_instructions_template(name)` from scaffold.py. -/
def copilot_instructions_template (name : String) : String :=
  "# Project: " ++ name ++
  "\n\nThis is a spec-driven scientific project. Specifications in `specs/` define what should be built.\n\n" ++
  "## Guidelines\n\n- Check `specs/` before implementing features\n- Reference specs when writing code\n- Write specs for new functionality before implementing\n- Keep implementations focused and incremental\n- Follow patterns established in existing code\n\n" ++
  "## Structure\n\n- `specs/` — Specifications (requirements, architecture, decisions)\n- `src/` — Source code\n- `tests/` — Test code\n"

/-!
## Filesystem model and `create_project`

A path is its list of components, relative to the working directory; the
project root is `[inputs.name]`.  The filesystem state holds the set of
existing directories (a list read up to membership; duplicates are harmless)
and the written files in write order (a later entry for the same path
shadows an earlier one, giving `write_text` its overwrite semantics).
-/

/-- Filesystem state: existing directories and written files. -/
structure FS where
  dirs : List (List String)
  files : List (List String × String)
  deriving Repr

/-- The empty filesystem (fresh working directory). -/
def emptyFS : FS := ⟨[], []⟩

/-- Model of `Path.exists()`: the path is a directory or a file. -/
def pathExists (fs : FS) (p : List String) : Bool :=
  fs.dirs.contains p || fs.files.any (fun e => e.1 == p)

/-- Content of the file at `p`, last write winning (overwrite semantics). -/
def lookupFile (fs : FS) (p : List String) : Option String :=
  (fs.files.reverse.find? (fun e => e.1 == p)).map (fun e => e.2)

/-- The non-empty prefixes of a path, shortest first: the directories brought
into existence by `mkdir(parents=True, exist_ok=True)` on that path. -/
def prefixesOf : List String → List (List String)
  | [] => []
  | a :: rest => [a] :: (prefixesOf rest).map (fun q => a :: q)

/-- The directories `create_project` asks for, relative to the project root,
in source order: the six base entries of `dirs`, the two extra entries for
"Algorithm implementation", and the AI-tool directory (`.claude/` or
`.github/`, made with `exist_ok=True` after the root files are written —
directory creation commutes with the file writes in this model, so it is
listed with the other directories). -/
def dirPlan (project_type ai_tool : String) : List (List String) :=
  [["specs", "01-requirements"],
   ["specs", "02-architecture"],
   ["specs", "03-implementation"],
   ["specs", "99-decisions"],
   ["src"],
   ["tests"]] ++
  (if project_type = "Algorithm implementation" then
    [["specs", "04-algorithms"], ["specs", "05-validation"]]
   else []) ++
  (if ai_tool = "Claude Code" then [[".claude"]]
   else if ai_tool = "GitHub Copilot" then [[".github"]]
   else [])

/-- The files `create_project` writes, as (path relative to the project
root, content) pairs in source write order: the four core spec files, the
project-type conditionals, the root files, the AI-tool file, and the two
`.gitkeep` markers (`touch` on a path that cannot pre-exist, since the root
directory is fresh; modelled as writing an empty file). -/
def filePlan (today name description project_type ai_tool : String) :
    List (List String × String) :=
  [(["specs", "spec-format.md"], SPEC_FORMAT),
   (["specs", "00-overview.md"], overview_template today name description),
   (["specs", "01-requirements", "functional.md"], FUNCTIONAL_REQUIREMENTS),
   (["specs", "99-decisions", "adr-000-template.md"], ADR_TEMPLATE)] ++
  (if project_type = "Data pipeline" then
    [(["specs", "02-architecture", "data-flow.md"], DATA_FLOW_TEMPLATE)]
   else []) ++
  (if project_type = "Algorithm implementation" then
    [(["specs", "04-algorithms", "algorithm-template.md"], ALGORITHM_SPEC_TEMPLATE),
     (["specs", "05-validation", "validation-plan.md"], VALIDATION_SPEC_TEMPLATE)]
   else []) ++
  [(["README.md"], readme_template name description),
   (["CONTRIBUTING.md"], contributing_template name)] ++
  (if ai_tool = "Claude Code" then [([".claude", "CLAUDE.md"], claude_md_template name)]
   else if ai_tool = "Cursor" then [([".cursorrules"], cursorrules_template name)]
   else if ai_tool = "GitHub Copilot" then
     [([".github", "copilot-instructions.md"], copilot_instructions_template name)]
   else []) ++
  [(["src", ".gitkeep"], ""), (["tests", ".gitkeep"], "")]

/-- The directories brought into existence by one run: every planned
directory, absolutized under the root, together with all its parents. -/
def newDirs (name project_type ai_tool : String) : List (List String) :=
  ((dirPlan project_type ai_tool).map (fun d => name :: d)).foldr
    (fun d acc => prefixesOf d ++ acc) []

/-- The files written by one run, absolutized under the root. -/
def newFiles (today name description project_type ai_tool : String) :
    List (List String × String) :=
  (filePlan today name description project_type ai_tool).map
    (fun e => (name :: e.1, e.2))

/-- Function `create_project(inputs)` from scaffold.py, as a state transformer: when
the root `Path(inputs.name)` already exists the process raises
`SystemExit(1)` before any mutation (`Except.error 1`); otherwise the
planned directories (with all their parents) and files, absolutized under
the root, are added and the root path is returned. -/
def create_project (today : String) (inp : Inputs) (fs : FS) :
    Except Nat (FS × List String) :=
  if pathExists fs [inp.name] then Except.error 1
  else
    Except.ok
      ({ dirs := fs.dirs ++ newDirs inp.name inp.project_type inp.ai_tool,
         files := fs.files ++
            newFiles today inp.name inp.description inp.project_type inp.ai_tool },
       [inp.name])

/-!
## Helper notions and lemmas
-/

/-- Predicate: `pat` occurs verbatim as a contiguous substring of `s`. -/
def ContainsSubstr (s pat : String) : Prop :=
  ∃ l r, s = l ++ pat ++ r

/-- Executable check that `pat` is a prefix of `l`. -/
def listPrefixB : List Char → List Char → Bool
  | [], _ => true
  | _ :: _, [] => false
  | a :: as, b :: bs => a == b && listPrefixB as bs

/-- Executable check that `pat` occurs contiguously inside `l`. -/
def listSub (pat : List Char) : List Char → Bool
  | [] => listPrefixB pat []
  | c :: t => listPrefixB pat (c :: t) || listSub pat t

theorem listPrefixB_iff (pat : List Char) :
    ∀ l, listPrefixB pat l = true ↔ ∃ t, l = pat ++ t := by
  induction pat with
  | nil => intro l; simp [listPrefixB]
  | cons a as ih =>
    intro l
    cases l with
    | nil =>
      simp [listPrefixB]
    | cons b bs =>
      simp only [listPrefixB, Bool.and_eq_true, beq_iff_eq, ih bs, List.cons_append]
      constructor
      · rintro ⟨rfl, t, rfl⟩; exact ⟨t, rfl⟩
      · rintro ⟨t, ht⟩
        injection ht with h1 h2
        exact ⟨h1.symm, t, h2⟩

theorem listSub_iff (pat : List Char) :
    ∀ l, listSub pat l = true ↔ ∃ l1 l2, l = l1 ++ (pat ++ l2) := by
  intro l
  induction l with
  | nil =>
    simp only [listSub, listPrefixB_iff]
    constructor
    · rintro ⟨t, ht⟩; exact ⟨[], t, ht⟩
    · rintro ⟨l1, l2, h⟩
      rcases List.append_eq_nil.mp h.symm with ⟨rfl, h2⟩
      exact ⟨l2, h.symm ▸ rfl⟩
  | cons c t ih =>
    simp only [listSub, Bool.or_eq_true, listPrefixB_iff, ih]
    constructor
    · rintro (⟨s, hs⟩ | ⟨l1, l2, h⟩)
      · exact ⟨[], s, by simpa using hs⟩
      · exact ⟨c :: l1, l2, by simp [h]⟩
    · rintro ⟨l1, l2, h⟩
      cases l1 with
      | nil => exact Or.inl ⟨l2, by simpa using h⟩
      | cons x l1 =>
        injection h with h1 h2
        exact Or.inr ⟨l1, l2, h2⟩

/-- Bridge between the substring predicate and its executable check. -/
theorem containsSubstr_iff (s pat : String) :
    ContainsSubstr s pat ↔ listSub pat.data s.data = true := by
  rw [listSub_iff]
  constructor
  · rintro ⟨l, r, rfl⟩
    exact ⟨l.data, r.data, by simp [String.data_append]⟩
  · rintro ⟨l1, l2, h⟩
    refine ⟨⟨l1⟩, ⟨l2⟩, String.ext ?_⟩
    simp [String.data_append, h]

theorem dropWhile_rdropWhile {α} (p : α → Bool) (m : List α) (hm : m.dropWhile p = m) :
    (m.rdropWhile p).dropWhile p = m.rdropWhile p := by
  rcases hn : m.rdropWhile p with _ | ⟨x, xs⟩
  · rfl
  · obtain ⟨t, ht⟩ := List.rdropWhile_prefix p m
    rw [hn] at ht
    have hx : ¬ p x = true := by
      intro hpx
      rw [← ht, List.cons_append, List.dropWhile_cons, if_pos hpx] at hm
      have hle := (List.dropWhile_suffix (l := xs ++ t) p).length_le
      rw [hm] at hle
      simp at hle
    rw [List.dropWhile_cons, if_neg hx]

theorem stripList_idem (l : List Char) : stripList (stripList l) = stripList l := by
  unfold stripList
  rw [dropWhile_rdropWhile _ _ (List.dropWhile_idempotent _ _), List.rdropWhile_idempotent]

theorem pyStrip_idem (s : String) : pyStrip (pyStrip s) = pyStrip s :=
  String.ext (stripList_idem s.data)

theorem dropWhile_head_false {α} (p : α → Bool) (l : List α) {c}
    (h : (l.dropWhile p).head? = some c) : p c = false := by
  have hh := List.head?_dropWhile_not p l
  rw [h] at hh
  exact hh

theorem stripList_head_not_ws (l : List Char) {c}
    (h : (stripList l).head? = some c) : c.isWhitespace = false := by
  unfold stripList at h
  have hd := dropWhile_rdropWhile Char.isWhitespace (l.dropWhile Char.isWhitespace)
    (List.dropWhile_idempotent _ _)
  exact dropWhile_head_false _ _ (by rw [hd]; exact h)

theorem stripList_last_not_ws (l : List Char) {c}
    (h : (stripList l).getLast? = some c) : c.isWhitespace = false := by
  unfold stripList at h
  have hne : (l.dropWhile Char.isWhitespace).rdropWhile Char.isWhitespace ≠ [] := by
    intro he
    rw [he] at h
    cases h
  have hlast := List.rdropWhile_last_not Char.isWhitespace (l.dropWhile Char.isWhitespace) hne
  rw [List.getLast?_eq_getLast _ hne] at h
  injection h with h1
  rw [← h1]
  exact Bool.not_eq_true _ |>.mp hlast

theorem ContainsSubstr.refl (x : String) : ContainsSubstr x x :=
  ⟨"", "", by simp⟩

theorem ContainsSubstr.appendR {s x : String} (h : ContainsSubstr s x) (b : String) :
    ContainsSubstr (s ++ b) x := by
  obtain ⟨l, r, rfl⟩ := h
  exact ⟨l, r ++ b, by simp [String.append_assoc]⟩

theorem ContainsSubstr.appendL (a : String) {s x : String} (h : ContainsSubstr s x) :
    ContainsSubstr (a ++ s) x := by
  obtain ⟨l, r, rfl⟩ := h
  exact ⟨a ++ l, r, by simp [String.append_assoc]⟩

/-- A three-chunk pattern sitting at chunk boundaries of a left-associated
append chain. -/
theorem containsSubstr_three (a p q r : String) :
    ContainsSubstr (a ++ p ++ q ++ r) (p ++ q ++ r) :=
  ⟨a, "", by simp [String.append_assoc]⟩

example : pyStrip "  a b  " = "a b" := by decide
example : pyInt "0" = some 0 := by decide
example : pyInt "abc" = none := by decide
example : pyInt "-12" = some (-12) := by decide
example : pyInt "1_0" = some 10 := by decide
example : pyInt "_1" = none := by decide
example : prompt_choice aiTools ["abc", "0", "2"] = some ("Cursor", []) := by decide
example : gather_inputs ["  ", "proj", " desc ", "3", "1"] =
    some ⟨"proj", "desc", "Algorithm implementation", "Claude Code"⟩ := by decide

/-!
## Claim theorems
-/

/-- C6: for every name/description pair, the output of `overview_template`
and of `readme_template` contains the literal name string and the literal
description string verbatim as substrings — no truncation, no escaping. -/
theorem C6_render_contains_name_description (today name description : String) :
    ContainsSubstr (overview_template today name description) name ∧
    ContainsSubstr (overview_template today name description) description ∧
    ContainsSubstr (readme_template name description) name ∧
    ContainsSubstr (readme_template name description) description := by
  refine ⟨?_, ?_, ?_, ?_⟩
  · exact (((((((((((((ContainsSubstr.refl name).appendL _).appendR _).appendR _).appendR _).appendR _).appendR _).appendR _).appendR _).appendR _).appendR _).appendR _).appendR _).appendR _
  · exact (((((((((ContainsSubstr.refl description).appendL _).appendR _).appendR _).appendR _).appendR _).appendR _).appendR _).appendR _).appendR _
  · exact ((((((((ContainsSubstr.refl name).appendL _).appendR _).appendR _).appendR _).appendR _).appendR _).appendR _).appendR _
  · exact ((((((ContainsSubstr.refl description).appendL _).appendR _).appendR _).appendR _).appendR _).appendR _

/-- C7: the file plan of `create_project` is date-independent except at
`specs/00-overview.md`: for any two generation dates the plans agree after
replacing the overview entry, the overview carries a change-record entry
"- date: Initial draft" with the generation date, and the static templates
carry the literal placeholder "YYYY-MM-DD" instead.  (In this embedding the
templates are pure functions of their string arguments, so they perform no
I/O and depend on no other external state by construction.) -/
theorem C7_date_dependence (t1 t2 name description project_type ai_tool : String) :
    filePlan t1 name description project_type ai_tool =
      (filePlan t2 name description project_type ai_tool).map
        (fun e => if e.1 = ["specs", "00-overview.md"] then
            (e.1, overview_template t1 name description) else e) ∧
    ContainsSubstr (overview_template t1 name description)
      ("- " ++ t1 ++ ": Initial draft") ∧
    ContainsSubstr FUNCTIONAL_REQUIREMENTS "YYYY-MM-DD" ∧
    ContainsSubstr ADR_TEMPLATE "YYYY-MM-DD" ∧
    ContainsSubstr DATA_FLOW_TEMPLATE "YYYY-MM-DD" ∧
    ContainsSubstr ALGORITHM_SPEC_TEMPLATE "YYYY-MM-DD" ∧
    ContainsSubstr VALIDATION_SPEC_TEMPLATE "YYYY-MM-DD" := by
  refine ⟨?_, ?_, ?_, ?_, ?_, ?_, ?_⟩
  · simp only [filePlan]
    split_ifs <;> rfl
  · exact (containsSubstr_three _ "- " t1 ": Initial draft").appendR _
  · rw [containsSubstr_iff]; decide
  · rw [containsSubstr_iff]; decide
  · rw [containsSubstr_iff]; decide
  · rw [containsSubstr_iff]; decide
  · rw [containsSubstr_iff]; decide

theorem prompt_choice_skip_none (options : List String) (r : String) (rs : List String)
    (h : pyInt (pyStrip r) = none) :
    prompt_choice options (r :: rs) = prompt_choice options rs := by
  simp only [prompt_choice, h]

theorem prompt_choice_skip_oob (options : List String) (r : String) (rs : List String)
    (i : Int) (h : pyInt (pyStrip r) = some i)
    (hn : ¬(1 ≤ i ∧ i ≤ (options.length : Int))) :
    prompt_choice options (r :: rs) = prompt_choice options rs := by
  simp only [prompt_choice, h]
  rw [dif_neg hn]

theorem prompt_choice_valid (options : List String) (r : String) (rs : List String)
    (i : Int) (o : String) (h : pyInt (pyStrip r) = some i)
    (h1 : 1 ≤ i) (h2 : i ≤ (options.length : Int))
    (ho : options.get? (i.toNat - 1) = some o) :
    prompt_choice options (r :: rs) = some (o, rs) := by
  simp only [prompt_choice, h]
  rw [dif_pos ⟨h1, h2⟩]
  rcases List.get?_eq_some.mp ho with ⟨hlt, hget⟩
  simp [← hget]

theorem prompt_choice_concrete (options : List String) (o : String)
    (ho : options.get? 1 = some o) :
    prompt_choice options ["abc", "0", "2"] = some (o, []) := by
  rcases List.get?_eq_some.mp ho with ⟨hlt, _⟩
  rw [prompt_choice_skip_none options "abc" ["0", "2"] rfl,
      prompt_choice_skip_oob options "0" ["2"] 0 rfl
        (by rintro ⟨h01, _⟩; exact absurd h01 (by decide)),
      prompt_choice_valid options "2" [] 2 o rfl (by decide) (by omega) ho]

/-- C4: the function `prompt_choice` never selects an option on a non-numeric or
out-of-range response (it recurs on the rest of the input), returns only
the 1-based `i`-th option for a response parsing to `i` within range, and
on the input sequence "abc", "0", "2" resolves to the option at 1-based
index 2.  Re-prompt messages are standard-output effects, not modelled. -/
theorem C4_menu_selection (options : List String) :
    (∀ r rs, pyInt (pyStrip r) = none →
      prompt_choice options (r :: rs) = prompt_choice options rs) ∧
    (∀ r rs i, pyInt (pyStrip r) = some i →
      ¬(1 ≤ i ∧ i ≤ (options.length : Int)) →
      prompt_choice options (r :: rs) = prompt_choice options rs) ∧
    (∀ r rs i o, pyInt (pyStrip r) = some i →
      1 ≤ i → i ≤ (options.length : Int) →
      options.get? (i.toNat - 1) = some o →
      prompt_choice options (r :: rs) = some (o, rs)) ∧
    (∀ o, options.get? 1 = some o →
      prompt_choice options ["abc", "0", "2"] = some (o, [])) :=
  ⟨prompt_choice_skip_none options, prompt_choice_skip_oob options,
   prompt_choice_valid options, prompt_choice_concrete options⟩

/-- C4 witness: the guarded selection applied to the concrete AI-tool menu
and the response sequence "abc", "0", "2" yields the second option. -/
theorem C4_menu_selection_witness :
    prompt_choice aiTools ["abc", "0", "2"] = some ("Cursor", []) :=
  (C4_menu_selection aiTools).2.2.2 "Cursor" rfl

/-- C5 counterexample: for the stdin script ["proj", " x ", "1", "1"] the
description response " x " is non-empty, yet the resulting description field
is the stripped "x", not " x " — refuting the claim that a non-empty
response is taken verbatim. -/
theorem C5_counterexample :
    (gather_inputs ["proj", " x ", "1", "1"]).map Inputs.description ≠ some " x " ∧
    (gather_inputs ["proj", " x ", "1", "1"]).map Inputs.description = some "x" :=
  ⟨by decide, by decide⟩

/-- C5 amended: the description response is stripped of surrounding
whitespace first; if the stripped response is empty the description field is
the default "A spec-driven scientific project", otherwise it is the stripped
response. -/
theorem C5_description_default (stdin : List String) (name r : String)
    (rest : List String) (inp : Inputs)
    (hpn : promptName stdin = some (name, r :: rest))
    (hg : gather_inputs stdin = some inp) :
    (pyStrip r = "" → inp.description = "A spec-driven scientific project") ∧
    (pyStrip r ≠ "" → inp.description = pyStrip r) := by
  unfold gather_inputs at hg
  simp only [hpn] at hg
  rcases hc1 : prompt_choice projectTypes rest with _ | ⟨pt, s3⟩
  · simp only [hc1] at hg; cases hg
  · simp only [hc1] at hg
    rcases hc2 : prompt_choice aiTools s3 with _ | ⟨a, s4⟩
    · simp only [hc2] at hg; cases hg
    · simp only [hc2] at hg
      injection hg with hg'
      subst hg'
      constructor
      · intro he; simp [prompt, he]
      · intro hne; simp [prompt, hne]

/-- C5 amended witness: on the concrete script the whitespace-padded
response " x " produces the stripped description. -/
theorem C5_description_default_witness :
    (⟨"proj", "x", "Data pipeline", "Claude Code"⟩ : Inputs).description = pyStrip " x " :=
  (C5_description_default ["proj", " x ", "1", "1"] "proj" " x " ["1", "1"]
    ⟨"proj", "x", "Data pipeline", "Claude Code"⟩ rfl (by decide)).2 (by decide)

theorem promptName_sound :
    ∀ (s : List String) (v : String) (rest : List String),
      promptName s = some (v, rest) → ∃ r, v = pyStrip r ∧ v ≠ "" := by
  intro s
  induction s with
  | nil => intro v rest h; cases h
  | cons r rs ih =>
    intro v rest h
    unfold promptName at h
    by_cases he : pyStrip r = ""
    · rw [if_pos he] at h
      exact ih v rest h
    · rw [if_neg he] at h
      injection h with h'
      injection h' with h1 h2
      exact ⟨r, h1.symm, h1 ▸ he⟩

theorem gather_inputs_name :
    ∀ (stdin : List String) (inp : Inputs), gather_inputs stdin = some inp →
      ∃ v rest, promptName stdin = some (v, rest) ∧ inp.name = v := by
  intro stdin inp hg
  unfold gather_inputs at hg
  rcases hp : promptName stdin with _ | ⟨v, s1⟩
  · simp only [hp] at hg; cases hg
  · simp only [hp] at hg
    rcases s1 with _ | ⟨r, s2⟩
    · cases hg
    rcases hc1 : prompt_choice projectTypes s2 with _ | ⟨pt, s3⟩
    · simp only [hc1] at hg; cases hg
    · simp only [hc1] at hg
      rcases hc2 : prompt_choice aiTools s3 with _ | ⟨a, s4⟩
      · simp only [hc2] at hg; cases hg
      · simp only [hc2] at hg
        injection hg with hg'
        subst hg'
        exact ⟨v, r :: s2, rfl, rfl⟩

/-- C9: the function `prompt` strips surrounding whitespace before any emptiness test
(with no default it returns the stripped response; a whitespace-only
response counts as empty and yields the default when one is given); the
name loop skips whitespace-only responses; and any name produced by
`gather_inputs` is non-empty, fixed under stripping, and neither begins nor
ends with a whitespace character. -/
theorem C9_name_stripped :
    (∀ r, prompt "" r = pyStrip r) ∧
    (∀ d r, d ≠ "" → pyStrip r = "" → prompt d r = d) ∧
    (∀ r rs, pyStrip r = "" → promptName (r :: rs) = promptName rs) ∧
    (∀ stdin inp, gather_inputs stdin = some inp →
      inp.name ≠ "" ∧ pyStrip inp.name = inp.name ∧
      (∀ c, inp.name.data.head? = some c → c.isWhitespace = false) ∧
      (∀ c, inp.name.data.getLast? = some c → c.isWhitespace = false)) := by
  refine ⟨?_, ?_, ?_, ?_⟩
  · intro r; simp [prompt]
  · intro d r hd he; simp [prompt, hd, he]
  · intro r rs he; simp [promptName, he]
  · intro stdin inp hg
    obtain ⟨v, rest, hp, hn⟩ := gather_inputs_name stdin inp hg
    obtain ⟨r, hv, hne⟩ := promptName_sound stdin v rest hp
    subst hv
    rw [hn]
    refine ⟨hne, pyStrip_idem r, ?_, ?_⟩
    · intro c hc
      exact stripList_head_not_ws r.data hc
    · intro c hc
      exact stripList_last_not_ws r.data hc

/-- C9 witness: a concrete run whose name response is whitespace-padded. -/
theorem C9_name_stripped_witness :
    (⟨"proj", "d", "Data pipeline", "Claude Code"⟩ : Inputs).name ≠ "" ∧
    pyStrip (⟨"proj", "d", "Data pipeline", "Claude Code"⟩ : Inputs).name =
      (⟨"proj", "d", "Data pipeline", "Claude Code"⟩ : Inputs).name := by
  have h := C9_name_stripped.2.2.2 ["  ", " proj ", "d", "1", "1"]
    ⟨"proj", "d", "Data pipeline", "Claude Code"⟩ (by decide)
  exact ⟨h.1, h.2.1⟩

theorem prefixesOf_head {a : String} {rest q : List String}
    (h : q ∈ prefixesOf (a :: rest)) : q.head? = some a := by
  simp only [prefixesOf, List.mem_cons, List.mem_map] at h
  rcases h with rfl | ⟨x, _, rfl⟩ <;> rfl

theorem mem_newDirs_head {n pt a : String} {q : List String}
    (h : q ∈ newDirs n pt a) : q.head? = some n := by
  unfold newDirs at h
  generalize dirPlan pt a = ds at h
  induction ds with
  | nil => simp at h
  | cons d ds ih =>
    simp only [List.map_cons, List.foldr_cons, List.mem_append] at h
    rcases h with h | h
    · exact prefixesOf_head h
    · exact ih h

theorem mem_newFiles_head {today n d pt a : String} {e : List String × String}
    (h : e ∈ newFiles today n d pt a) : e.1.head? = some n := by
  unfold newFiles at h
  rcases List.mem_map.mp h with ⟨x, _, rfl⟩
  rfl

theorem root_mem_newDirs (n pt a : String) : [n] ∈ newDirs n pt a :=
  List.mem_cons_self _ _

theorem pathExists_of_mem_dirs (fs : FS) (p : List String) (h : p ∈ fs.dirs) :
    pathExists fs p = true := by
  simp only [pathExists, Bool.or_eq_true]
  exact Or.inl (List.elem_iff.mpr h)

/-- C2: when the root directory already exists, `create_project` terminates
the process with exit status 1 before any filesystem mutation (the model
returns `Except.error 1` without touching the state); after any successful
run, a second invocation with the same name always fails the same way. -/
theorem C2_already_exists (today : String) (inp : Inputs) (fs : FS) :
    (pathExists fs [inp.name] = true → create_project today inp fs = Except.error 1) ∧
    (∀ fs' r, create_project today inp fs = Except.ok (fs', r) →
      ∀ (today2 : String) (inp2 : Inputs), inp2.name = inp.name →
        create_project today2 inp2 fs' = Except.error 1) := by
  constructor
  · intro h
    simp [create_project, h]
  · intro fs' r hok today2 inp2 hname
    unfold create_project at hok
    by_cases h : pathExists fs [inp.name] = true
    · rw [if_pos h] at hok; cases hok
    · rw [if_neg h] at hok
      injection hok with hok'
      injection hok' with h1 h2
      subst h1; subst h2
      have hmem : [inp.name] ∈ fs.dirs ++ newDirs inp.name inp.project_type inp.ai_tool :=
        List.mem_append_right _ (root_mem_newDirs _ _ _)
      have hex : pathExists
          ({ dirs := fs.dirs ++ newDirs inp.name inp.project_type inp.ai_tool,
             files := fs.files ++
               newFiles today inp.name inp.description inp.project_type inp.ai_tool } : FS)
          [inp.name] = true :=
        pathExists_of_mem_dirs _ _ hmem
      unfold create_project
      rw [hname, if_pos hex]

/-- C2 witness: the precondition check on an existing root, and the failure
of a second run over the state left by a first run. -/
theorem C2_already_exists_witness :
    create_project "2026-10-12" ⟨"p", "x", "General", "Other/None"⟩
      (⟨[["p"]], []⟩ : FS) = Except.error 1 ∧
    create_project "2026-10-13" ⟨"p", "y", "Data pipeline", "Cursor"⟩
      ((create_project "2026-10-12" ⟨"p", "z", "General", "Other/None"⟩
          emptyFS).toOption.get (by decide)).1 = Except.error 1 := by
  constructor
  · exact (C2_already_exists "2026-10-12" ⟨"p", "x", "General", "Other/None"⟩
      (⟨[["p"]], []⟩ : FS)).1 (by decide)
  · exact (C2_already_exists "2026-10-12" ⟨"p", "z", "General", "Other/None"⟩ emptyFS).2
      _ _ rfl "2026-10-13" ⟨"p", "y", "Data pipeline", "Cursor"⟩ rfl

/-- Modelled from the spec: the file set C1 describes — the base set
(spec-format.md, 00-overview.md, functional.md, adr-000-template.md,
README.md, CONTRIBUTING.md and the two .gitkeep markers) plus
specs/02-architecture/data-flow.md iff the project type is "Data pipeline",
plus the two algorithm files iff it is "Algorithm implementation", plus
exactly one AI-tool file for "Claude Code"/"Cursor"/"GitHub Copilot" and
none for "Other/None".  The claim speaks of a set; the list is written in
the builder's write order so that set equality is established by list
equality. -/
def C1ExpectedFiles (project_type ai_tool : String) : List (List String) :=
  [["specs", "spec-format.md"],
   ["specs", "00-overview.md"],
   ["specs", "01-requirements", "functional.md"],
   ["specs", "99-decisions", "adr-000-template.md"]] ++
  (if project_type = "Data pipeline" then
    [["specs", "02-architecture", "data-flow.md"]] else []) ++
  (if project_type = "Algorithm implementation" then
    [["specs", "04-algorithms", "algorithm-template.md"],
     ["specs", "05-validation", "validation-plan.md"]] else []) ++
  [["README.md"], ["CONTRIBUTING.md"]] ++
  (if ai_tool = "Claude Code" then [[".claude", "CLAUDE.md"]]
   else if ai_tool = "Cursor" then [[".cursorrules"]]
   else if ai_tool = "GitHub Copilot" then [[".github", "copilot-instructions.md"]]
   else []) ++
  [["src", ".gitkeep"], ["tests", ".gitkeep"]]

/-- C1: for each of the 16 valid project-type × AI-tool combinations (and
any name, description and date), a run in a fresh working directory writes
exactly the claimed file set — no file missing, none extra. -/
theorem C1_exact_file_set (today name description pt a : String)
    (hpt : pt ∈ projectTypes) (hat : a ∈ aiTools) :
    ∃ fs', create_project today ⟨name, description, pt, a⟩ emptyFS =
        Except.ok (fs', [name]) ∧
      fs'.files.map Prod.fst = (C1ExpectedFiles pt a).map (fun p => name :: p) := by
  simp only [projectTypes, List.mem_cons, List.not_mem_nil, or_false] at hpt
  simp only [aiTools, List.mem_cons, List.not_mem_nil, or_false] at hat
  rcases hpt with rfl | rfl | rfl | rfl <;> rcases hat with rfl | rfl | rfl | rfl <;>
    exact ⟨_, rfl, rfl⟩

/-- C1 witness: the General / Other-None combination on a fresh directory. -/
theorem C1_exact_file_set_witness :
    ∃ fs', create_project "2026-10-12" ⟨"proj", "desc", "General", "Other/None"⟩
        emptyFS = Except.ok (fs', ["proj"]) ∧
      fs'.files.map Prod.fst =
        (C1ExpectedFiles "General" "Other/None").map (fun p => "proj" :: p) :=
  C1_exact_file_set "2026-10-12" "proj" "desc" "General" "Other/None"
    (by decide) (by decide)

/-- C10: a successful run returns the root path, removes nothing, and every
directory or file it adds lies strictly under the root; outside the root
both file contents and directory existence are untouched. -/
theorem C10_frame (today : String) (inp : Inputs) (fs fs' : FS) (r : List String)
    (h : create_project today inp fs = Except.ok (fs', r)) :
    r = [inp.name] ∧
    (∀ q ∈ fs.dirs, q ∈ fs'.dirs) ∧
    (∀ e ∈ fs.files, e ∈ fs'.files) ∧
    (∀ q ∈ fs'.dirs, q ∈ fs.dirs ∨ q.head? = some inp.name) ∧
    (∀ e ∈ fs'.files, e ∈ fs.files ∨ e.1.head? = some inp.name) ∧
    (∀ p, p.head? ≠ some inp.name →
      lookupFile fs' p = lookupFile fs p ∧ (p ∈ fs'.dirs ↔ p ∈ fs.dirs)) := by
  unfold create_project at h
  by_cases hex : pathExists fs [inp.name] = true
  · rw [if_pos hex] at h; cases h
  · rw [if_neg hex] at h
    injection h with h'
    injection h' with h1 h2
    subst h1; subst h2
    refine ⟨rfl, ?_, ?_, ?_, ?_, ?_⟩
    · intro q hq; exact List.mem_append_left _ hq
    · intro e he; exact List.mem_append_left _ he
    · intro q hq
      rcases List.mem_append.mp hq with hq | hq
      · exact Or.inl hq
      · exact Or.inr (mem_newDirs_head hq)
    · intro e he
      rcases List.mem_append.mp he with he | he
      · exact Or.inl he
      · exact Or.inr (mem_newFiles_head he)
    · intro p hp
      constructor
      · unfold lookupFile
        rw [List.reverse_append, List.find?_append]
        have hnone : (newFiles today inp.name inp.description inp.project_type
            inp.ai_tool).reverse.find? (fun e => e.1 == p) = none := by
          rw [List.find?_eq_none]
          intro x hx
          have hh : x.1.head? = some inp.name :=
            mem_newFiles_head (List.mem_reverse.mp hx)
          simp only [beq_iff_eq]
          intro hxp
          rw [hxp] at hh
          exact hp hh
        rw [hnone, Option.none_or]
      · constructor
        · intro hq
          rcases List.mem_append.mp hq with hq | hq
          · exact hq
          · exact absurd (mem_newDirs_head hq) hp
        · exact List.mem_append_left _

/-- C10 witness: a concrete successful run returns its root path. -/
theorem C10_frame_witness :
    ((create_project "2026-10-12" ⟨"p", "d", "General", "Other/None"⟩
        emptyFS).toOption.get (by decide)).2 = ["p"] :=
  (C10_frame "2026-10-12" ⟨"p", "d", "General", "Other/None"⟩ emptyFS _ _ rfl).1

/-- C3 counterexample: the claimed totals are inconsistent with the file
list the claim itself gives: the end-to-end scenario writes 11 files (the
nine named files plus the two .gitkeep markers), not 10. -/
theorem C3_counterexample :
    ¬ ((create_project "2026-10-12"
        ⟨"seismic-analysis", "Detect quakes", "Algorithm implementation", "Claude Code"⟩
        emptyFS).toOption.map (fun x => x.1.files.length) = some 10) := by
  intro h
  have e : (create_project "2026-10-12"
      ⟨"seismic-analysis", "Detect quakes", "Algorithm implementation", "Claude Code"⟩
      emptyFS).toOption.map (fun x => x.1.files.length) = some 11 := rfl
  rw [e] at h
  exact absurd h (by decide)

/-- C3 amended: the seismic-analysis end-to-end scenario writes exactly the
nine named files plus the two .gitkeep markers — 11 files — and brings
exactly 10 distinct directories into existence besides `.claude`
(root, specs, the four numbered base spec directories, src, tests, and the
two algorithm-specific spec directories), 11 counting `.claude`. -/
theorem C3_end_to_end :
    ∃ fs', create_project "2026-10-12"
        ⟨"seismic-analysis", "Detect quakes", "Algorithm implementation", "Claude Code"⟩
        emptyFS = Except.ok (fs', ["seismic-analysis"]) ∧
      fs'.files.map Prod.fst =
        [["seismic-analysis", "specs", "spec-format.md"],
         ["seismic-analysis", "specs", "00-overview.md"],
         ["seismic-analysis", "specs", "01-requirements", "functional.md"],
         ["seismic-analysis", "specs", "99-decisions", "adr-000-template.md"],
         ["seismic-analysis", "specs", "04-algorithms", "algorithm-template.md"],
         ["seismic-analysis", "specs", "05-validation", "validation-plan.md"],
         ["seismic-analysis", "README.md"],
         ["seismic-analysis", "CONTRIBUTING.md"],
         ["seismic-analysis", ".claude", "CLAUDE.md"],
         ["seismic-analysis", "src", ".gitkeep"],
         ["seismic-analysis", "tests", ".gitkeep"]] ∧
      fs'.files.length = 11 ∧
      fs'.dirs.eraseDups =
        [["seismic-analysis"],
         ["seismic-analysis", "specs"],
         ["seismic-analysis", "specs", "01-requirements"],
         ["seismic-analysis", "specs", "02-architecture"],
         ["seismic-analysis", "specs", "03-implementation"],
         ["seismic-analysis", "specs", "99-decisions"],
         ["seismic-analysis", "src"],
         ["seismic-analysis", "tests"],
         ["seismic-analysis", "specs", "04-algorithms"],
         ["seismic-analysis", "specs", "05-validation"],
         ["seismic-analysis", ".claude"]] ∧
      (fs'.dirs.eraseDups.filter
        (fun d => !(d == ["seismic-analysis", ".claude"]))).length = 10 :=
  ⟨_, rfl, rfl, rfl, rfl, rfl⟩

/-- C8 counterexample: README.md is a rendered file written by
`create_project`, and it has no "## Change Record" section at all, so not
every rendered file contains one. -/
theorem C8_counterexample :
    ¬ (∀ fs' r, create_project "2026-10-12" ⟨"n", "d", "General", "Other/None"⟩
          emptyFS = Except.ok (fs', r) →
        ∀ e ∈ fs'.files, ContainsSubstr e.2 "## Change Record") := by
  intro hAll
  have h2 := hAll _ _ rfl
  have h3 := h2 (["n", "README.md"], readme_template "n" "d")
    (List.get?_mem (n := 4) rfl)
  rw [containsSubstr_iff] at h3
  exact absurd h3 (by decide)

theorem spec_format_chrec : ContainsSubstr SPEC_FORMAT "## Change Record" := by
  rw [containsSubstr_iff]; decide

theorem functional_chrec : ContainsSubstr FUNCTIONAL_REQUIREMENTS "## Change Record" := by
  rw [containsSubstr_iff]; decide

theorem functional_status : ContainsSubstr FUNCTIONAL_REQUIREMENTS "**Status**: " := by
  rw [containsSubstr_iff]; decide

theorem adr_chrec : ContainsSubstr ADR_TEMPLATE "## Change Record" := by
  rw [containsSubstr_iff]; decide

theorem adr_status : ContainsSubstr ADR_TEMPLATE "**Status**: " := by
  rw [containsSubstr_iff]; decide

theorem data_flow_chrec : ContainsSubstr DATA_FLOW_TEMPLATE "## Change Record" := by
  rw [containsSubstr_iff]; decide

theorem data_flow_status : ContainsSubstr DATA_FLOW_TEMPLATE "**Status**: " := by
  rw [containsSubstr_iff]; decide

theorem algorithm_chrec : ContainsSubstr ALGORITHM_SPEC_TEMPLATE "## Change Record" := by
  rw [containsSubstr_iff]; decide

theorem algorithm_status : ContainsSubstr ALGORITHM_SPEC_TEMPLATE "**Status**: " := by
  rw [containsSubstr_iff]; decide

theorem validation_chrec : ContainsSubstr VALIDATION_SPEC_TEMPLATE "## Change Record" := by
  rw [containsSubstr_iff]; decide

theorem validation_status : ContainsSubstr VALIDATION_SPEC_TEMPLATE "**Status**: " := by
  rw [containsSubstr_iff]; decide

theorem overview_chrec (today name description : String) :
    ContainsSubstr (overview_template today name description) "## Change Record" :=
  ((((((ContainsSubstr.refl "## Change Record").appendL _).appendR _).appendR _).appendR _).appendR _).appendR _

theorem overview_status (today name description : String) :
    ContainsSubstr (overview_template today name description) "**Status**: " :=
  (((((((((((ContainsSubstr.refl "**Status**: ").appendL _).appendR _).appendR _).appendR _).appendR _).appendR _).appendR _).appendR _).appendR _).appendR _).appendR _

theorem mem_ite {α : Type} {a : α} {c : Prop} [Decidable c] {l1 l2 : List α} :
    a ∈ (if c then l1 else l2) ↔ (c ∧ a ∈ l1) ∨ (¬c ∧ a ∈ l2) := by
  split_ifs with h <;> simp [h]

/-- C8 amended: restricted to the rendered spec files — every file the plan
places under `specs/` contains a "## Change Record" section, and every such
file except `specs/spec-format.md` carries a `**Status**: <value>` line. -/
theorem C8_spec_files_status_chrec (today name description project_type ai_tool : String) :
    ∀ e ∈ filePlan today name description project_type ai_tool,
      e.1.head? = some "specs" →
      ContainsSubstr e.2 "## Change Record" ∧
      (e.1 ≠ ["specs", "spec-format.md"] → ContainsSubstr e.2 "**Status**: ") := by
  intro e he hh
  simp only [filePlan] at he
  rcases List.mem_append.mp he with he | he
  · rcases List.mem_append.mp he with he | he
    · rcases List.mem_append.mp he with he | he
      · rcases List.mem_append.mp he with he | he
        · rcases List.mem_append.mp he with he | he
          · simp only [List.mem_cons, List.not_mem_nil, or_false] at he
            rcases he with rfl | rfl | rfl | rfl
            · exact ⟨spec_format_chrec, fun hne => absurd rfl hne⟩
            · exact ⟨overview_chrec today name description,
                fun _ => overview_status today name description⟩
            · exact ⟨functional_chrec, fun _ => functional_status⟩
            · exact ⟨adr_chrec, fun _ => adr_status⟩
          · rcases mem_ite.mp he with ⟨_, he⟩ | ⟨_, he⟩
            · simp only [List.mem_cons, List.not_mem_nil, or_false] at he
              subst he
              exact ⟨data_flow_chrec, fun _ => data_flow_status⟩
            · exact absurd he (List.not_mem_nil _)
        · rcases mem_ite.mp he with ⟨_, he⟩ | ⟨_, he⟩
          · simp only [List.mem_cons, List.not_mem_nil, or_false] at he
            rcases he with rfl | rfl
            · exact ⟨algorithm_chrec, fun _ => algorithm_status⟩
            · exact ⟨validation_chrec, fun _ => validation_status⟩
          · exact absurd he (List.not_mem_nil _)
      · simp only [List.mem_cons, List.not_mem_nil, or_false] at he
        rcases he with rfl | rfl <;> simp at hh
    · rcases mem_ite.mp he with ⟨_, he⟩ | ⟨_, he⟩
      · simp only [List.mem_cons, List.not_mem_nil, or_false] at he
        subst he
        simp at hh
      · rcases mem_ite.mp he with ⟨_, he⟩ | ⟨_, he⟩
        · simp only [List.mem_cons, List.not_mem_nil, or_false] at he
          subst he
          simp at hh
        · rcases mem_ite.mp he with ⟨_, he⟩ | ⟨_, he⟩
          · simp only [List.mem_cons, List.not_mem_nil, or_false] at he
            subst he
            simp at hh
          · exact absurd he (List.not_mem_nil _)
  · simp only [List.mem_cons, List.not_mem_nil, or_false] at he
    rcases he with rfl | rfl <;> simp at hh

/-- C8 amended witness: the functional-requirements spec file carries both
markers. -/
theorem C8_spec_files_status_chrec_witness :
    ContainsSubstr FUNCTIONAL_REQUIREMENTS "## Change Record" ∧
    ContainsSubstr FUNCTIONAL_REQUIREMENTS "**Status**: " := by
  have h := C8_spec_files_status_chrec "t" "n" "d" "General" "Other/None"
    (["specs", "01-requirements", "functional.md"], FUNCTIONAL_REQUIREMENTS)
    (List.get?_mem (n := 2) rfl) rfl
  exact ⟨h.1, h.2 (by decide)⟩

end Scaffold
